import Mathlib

/-!
# Shallow embedding of `src/server.js` (keycrm-leads-checker)

JS values are modelled by `Json` (numbers as `Int`); the `undefined` value
(absent object fields) is `Json.undef`.  JS truthiness, `&&` / `||`,
`String(...)` coercion and `Map` key comparison (SameValueZero; arrays and
objects are compared by reference in JS, hence two separately built ones are
never equal here) are modelled by the functions below.  Stateful code (the
company cache, the pagination loops) is modelled by explicit state passing;
`fetch` results are supplied as explicit arguments; the upstream client and
the page fetches return `Except` for JS exceptions.
-/

inductive Json where
  | undef : Json
  | null : Json
  | bool (b : Bool) : Json
  | num (n : Int) : Json
  | str (s : String) : Json
  | arr (xs : List Json) : Json
  | obj (fields : List (String × Json)) : Json

/-- JS truthiness of a value. -/
def Json.truthy : Json → Bool
  | .undef => false
  | .null => false
  | .bool b => b
  | .num n => n != 0
  | .str s => s != ""
  | .arr _ => true
  | .obj _ => true

/-- JS `a && b` (value semantics). -/
def jsAnd (a b : Json) : Json := if a.truthy then b else a

/-- JS `a || b` (value semantics). -/
def jsOr (a b : Json) : Json := if a.truthy then a else b

/-- JS property access `o.k`; in the source every access is guarded by
`o && o.k`, so non-objects simply yield `undef` here. -/
def Json.getF : Json → String → Json
  | .obj fs, k =>
    match fs.find? (fun p => p.1 == k) with
    | some p => p.2
    | none => .undef
  | _, _ => .undef

mutual

/-- JS `String(v)` coercion (template-literal interpolation uses the same
conversion for the values appearing in the source). -/
def jsToString : Json → String
  | .undef => "undefined"
  | .null => "null"
  | .bool true => "true"
  | .bool false => "false"
  | .num n => toString n
  | .str s => s
  | .arr xs => jsArrJoin xs
  | .obj _ => "[object Object]"
termination_by structural j => j

/-- JS `Array.prototype.toString` = `join(",")`: elements are `String(...)`-ed,
with `null`/`undefined` elements becoming the empty string. -/
def jsArrJoin : List Json → String
  | [] => ""
  | [.undef] => ""
  | [.null] => ""
  | [x] => jsToString x
  | .undef :: y :: xs => "," ++ jsArrJoin (y :: xs)
  | .null :: y :: xs => "," ++ jsArrJoin (y :: xs)
  | x :: y :: xs => jsToString x ++ "," ++ jsArrJoin (y :: xs)
termination_by structural xs => xs

end

/-- JS `Map` key equality (SameValueZero).  On the primitives of our value
universe this is value equality; arrays/objects compare by reference in JS,
so two separately constructed ones are never equal. -/
def sameValueZero : Json → Json → Bool
  | .undef, .undef => true
  | .null, .null => true
  | .bool a, .bool b => a == b
  | .num a, .num b => a == b
  | .str a, .str b => a == b
  | _, _ => false

/-- A primitive value, for which `sameValueZero` agrees with value equality
(the company ids occurring in practice are numbers or strings). -/
def Json.isPrim : Json → Bool
  | .arr _ => false
  | .obj _ => false
  | _ => true

/-! ## Field canonicalizer (src/server.js lines 32-56, 113-146) -/

/-- The characters matched by the JS regex class `[\s()-]` used in
`normalizeUaPhone`; JS `\s` is this set of whitespace / line-terminator
code points. -/
def jsWs (c : Char) : Bool :=
  let n := c.toNat
  n == 9 || n == 10 || n == 11 || n == 12 || n == 13 || n == 32 ||
  n == 0xa0 || n == 0x1680 ||
  n == 0x2000 || n == 0x2001 || n == 0x2002 || n == 0x2003 || n == 0x2004 ||
  n == 0x2005 || n == 0x2006 || n == 0x2007 || n == 0x2008 || n == 0x2009 ||
  n == 0x200a || n == 0x2028 || n == 0x2029 || n == 0x202f || n == 0x205f ||
  n == 0x3000 || n == 0xfeff

/-- A character removed by `s.replace(/[\s()-]/g, "")`. -/
def stripChar (c : Char) : Bool := jsWs c || c == '(' || c == ')' || c == '-'

/-- JS `String.prototype.trim` on the string's characters. -/
def jsTrim (cs : List Char) : List Char :=
  ((cs.dropWhile jsWs).reverse.dropWhile jsWs).reverse

/-- The JS regex test `/^380\d{9}$/`. -/
def re380 : List Char → Bool
  | '3' :: '8' :: '0' :: rest => rest.length == 9 && rest.all Char.isDigit
  | _ => false

/-- The JS regex test `/^0\d{9}$/`. -/
def re0 : List Char → Bool
  | '0' :: rest => rest.length == 9 && rest.all Char.isDigit
  | _ => false

/-- Step `if (s.startsWith("00")) s = "+" + s.slice(2);` of
`normalizeUaPhone`. -/
def norm00 (s : List Char) : List Char :=
  if s.take 2 = ['0', '0'] then '+' :: s.drop 2 else s

/-- The return branches of `normalizeUaPhone` (src/server.js lines 47-51).
The source's final two branches (`if (s.startsWith("+")) return s;` and
`return s;`) both return `s` unchanged, hence the single fall-through. -/
def normBranch (s : List Char) : List Char :=
  if s.take 4 = ['+', '3', '8', '0'] then s
  else if re380 s then '+' :: s
  else if re0 s then '+' :: '3' :: '8' :: s
  else s

/-- Core of `normalizeUaPhone` (src/server.js lines 42-52) after the
`String(phone || "")` coercion, on the string's characters: trim, return
empty on empty, strip `[\s()-]`, apply the `00` rewrite, then the return
branches. -/
def normCore (input : List Char) : List Char :=
  let t := jsTrim input
  if t = [] then []
  else normBranch (norm00 (t.filter (fun c => !stripChar c)))

/-- Source `normalizeUaPhone` (src/server.js lines 42-52). -/
def normalizeUaPhone (phone : Json) : String :=
  String.mk (normCore (jsToString (jsOr phone (Json.str ""))).data)

/-- Source `normalizeEmail` (src/server.js lines 53-56): coerce, trim, lowercase
(ASCII case mapping). -/
def normalizeEmail (email : Json) : String :=
  String.mk ((jsTrim (jsToString (jsOr email (Json.str ""))).data).map Char.toLower)

/-- Source `ensureArray` (src/server.js lines 32-33). -/
def ensureArray (v : Json) : List Json :=
  match v with
  | .arr xs => xs.filter Json.truthy
  | _ => if v.truthy then [v] else []

/-- Source `toArray` (src/server.js lines 35-40), for top-level shapes whose
`data` / `items` fields are arrays. -/
def toArray (j : Json) : List Json :=
  match j with
  | .arr xs => xs
  | _ =>
    if (jsAnd j (j.getF "data")).truthy then
      match j.getF "data" with | .arr xs => xs | _ => []
    else if (jsAnd j (j.getF "items")).truthy then
      match j.getF "items" with | .arr xs => xs | _ => []
    else []

/-- The canonical buyer object built by `mapBuyer`.  The source calls the
dedupe-key field `dedupe`. -/
structure Buyer where
  id : Json
  name : Json
  phones : List String
  emails : List String
  companyId : Json
  dedupe : List String

/-- Source `mapBuyer` (src/server.js lines 113-146). -/
def mapBuyer (b : Json) : Buyer :=
  let id := jsOr (jsOr (jsAnd b (b.getF "id")) (jsAnd b (b.getF "buyer_id"))) Json.null
  let name :=
    jsOr
      (jsOr (jsOr (jsAnd b (b.getF "name")) (jsAnd b (b.getF "full_name")))
        (jsAnd b (b.getF "fullname")))
      (if (jsAnd (jsAnd b (b.getF "first_name")) (b.getF "last_name")).truthy then
        Json.str (String.mk (jsTrim
          (jsToString (jsOr (b.getF "first_name") (Json.str "")) ++ " " ++
            jsToString (jsOr (b.getF "last_name") (Json.str ""))).data))
      else Json.str "")
  let phones :=
    ((ensureArray (jsOr (jsAnd b (b.getF "phone")) (jsAnd b (b.getF "phones")))).map
      normalizeUaPhone).filter (fun s => s != "")
  let emails :=
    ((ensureArray (jsOr (jsAnd b (b.getF "email")) (jsAnd b (b.getF "emails")))).map
      normalizeEmail).filter (fun s => s != "")
  let companyId := jsOr (jsAnd b (b.getF "company_id")) Json.null
  let dedupe := phones.map (fun p => "tel:" ++ p) ++ emails.map (fun e => "email:" ++ e)
  { id := id, name := name, phones := phones, emails := emails,
    companyId := companyId, dedupe := dedupe }

/-! ## Upstream client `keycrm` (src/server.js lines 58-82)

The HTTP exchange is passed in explicitly: `HttpResponse.body = none`
models an empty response body text, `some j` a body text parsing to `j`
(JSON parse errors are outside the scope of the modelled behaviour).
The returned `Bool` records whether an HTTP request was issued. -/

structure HttpResponse where
  status : Nat
  statusText : String
  body : Option Json

inductive KeycrmError where
  | config (msg : String) : KeycrmError
  | upstream (method path : String) (status : Nat) (msg : String) : KeycrmError

/-- Truthiness of `KEYCRM_API_KEY` (an env var: absent or a string). -/
def keyTruthy : Option String → Bool
  | none => false
  | some s => s != ""

/-- Source `keycrm` (src/server.js lines 58-82). -/
def keycrm (apiKey : Option String) (method path : String) (resp : HttpResponse) :
    Bool × Except KeycrmError Json :=
  if !keyTruthy apiKey then
    (false, .error (.config "KEYCRM_API_KEY не задан в .env"))
  else
    let json : Json := match resp.body with | none => Json.null | some j => j
    if !(decide (200 ≤ resp.status) && decide (resp.status ≤ 299)) then
      let msg := jsToString (jsOr
        (jsOr (jsAnd json (json.getF "message")) (jsAnd json (json.getF "error")))
        (Json.str resp.statusText))
      (true, .error (.upstream method path resp.status msg))
    else
      (true, .ok json)

/-! ## Company cache (src/server.js lines 84-110, 164-178, 227-243)

`companiesCache` is a `Map`; we model it as an association list threaded
through the operations, preserving insertion order and `Map`'s key
semantics (`sameValueZero`; `set` on an existing key keeps the original
key object and replaces the value). -/

abbrev Cache := List (Json × Json)

/-- Map operations `companiesCache.get` / `.has` combined: `some` iff `has`. -/
def cacheFind (m : Cache) (k : Json) : Option Json :=
  (m.find? (fun p => sameValueZero p.1 k)).map (fun p => p.2)

/-- Map operation `companiesCache.set k v`. -/
def cacheSet (m : Cache) (k v : Json) : Cache :=
  if (m.find? (fun p => sameValueZero p.1 k)).isSome then
    m.map (fun p => if sameValueZero p.1 k then (p.1, v) else p)
  else m ++ [(k, v)]

/-- Map operation `companiesCache.size`. -/
def cacheSize (m : Cache) : Nat := m.length

/-- Map operation `companiesCache.clear()` (the `POST /cache/clear` handler,
src/server.js lines 165-178). -/
def cacheClear : Cache → Cache := fun _ => []

/-- Source `getCompanyById` (src/server.js lines 88-110).  `upstream id` stands
for `keycrm("/companies/" + id + "?include=custom_fields")`: `.ok` is a
successful fetch (of the parsed json), `.error` a thrown error.  Returns
the company (or `null`), the new cache state, and whether upstream was
invoked. -/
def getCompanyById (upstream : Json → Except String Json) (cache : Cache)
    (companyId : Json) : Json × Cache × Bool :=
  if !companyId.truthy then (Json.null, cache, false)
  else
    match cacheFind cache companyId with
    | some v => (v, cache, false)
    | none =>
      match upstream companyId with
      | .ok company => (company, cacheSet cache companyId company, true)
      | .error _ => (Json.null, cache, true)

/-! ## Pagination accumulators

`GET /buyers/all` (src/server.js lines 313-363) and `GET /companies/all`
(lines 204-257).  `fetch page` stands for `toArray(await keycrm(...))` for
that page; for the companies loop it is `Except`-valued to model a thrown
upstream error.  The loops are structurally recursive on a fuel argument;
the entry points pass more fuel than the hard page caps (1000, resp. 100)
allow iterations, so the fuel-exhaustion branch is unreachable from them. -/

/-- The `while` loop of `GET /buyers/all`: state is `(page, acc)`; the last
component counts the page fetches issued (instrumentation).  Returns
`(acc, page - 1, fetches)`, the second component being `pages_processed`. -/
def buyersAllLoop (fetch : Nat → List Json) (max : Nat) :
    Nat → Nat → List Json → Nat → List Json × Nat × Nat
  | 0, page, acc, fetches => (acc, page - 1, fetches)
  | fuel + 1, page, acc, fetches =>
    if acc.length < max ∧ page ≤ 1000 then
      let raw := fetch page
      if raw.length = 0 then (acc, page - 1, fetches + 1)
      else buyersAllLoop fetch max fuel (page + 1) (acc ++ raw) (fetches + 1)
    else (acc, page - 1, fetches)

/-- The response of `GET /buyers/all` (src/server.js lines 353-363). -/
structure BuyersAllResp where
  total : Nat
  pages : Nat
  perPage : Nat
  data : List Buyer

/-- Route `GET /buyers/all` (success path), paired with the number of page
fetches issued. -/
def buyersAll (fetch : Nat → List Json) (max : Nat) : BuyersAllResp × Nat :=
  let r := buyersAllLoop fetch max 1002 1 [] 0
  let data := (r.1.take max).map mapBuyer
  ({ total := data.length, pages := r.2.1, perPage := 15, data := data }, r.2.2)

/-- The cache-priming `for` loop inside `GET /companies/all`
(src/server.js lines 233-237). -/
def primeCache (cache : Cache) : List Json → Cache
  | [] => cache
  | company :: rest =>
    primeCache
      (if (company.getF "id").truthy then cacheSet cache (company.getF "id") company
       else cache)
      rest

/-- The `while` loop of `GET /companies/all`: threads the (global) company
cache; a failed page fetch aborts with the error and the cache state at
that point (the `catch` in the handler only builds the error response, it
does not touch the cache). -/
def companiesAllLoop (fetch : Nat → Except String (List Json)) (max : Nat) :
    Nat → Nat → List Json → Cache → Except (String × Cache) (List Json × Nat × Cache)
  | 0, page, acc, cache => .ok (acc, page - 1, cache)
  | fuel + 1, page, acc, cache =>
    if acc.length < max ∧ page ≤ 100 then
      match fetch page with
      | .error e => .error (e, cache)
      | .ok raw =>
        if raw.length = 0 then .ok (acc, page - 1, cache)
        else companiesAllLoop fetch max fuel (page + 1) (acc ++ raw) (primeCache cache raw)
    else .ok (acc, page - 1, cache)

/-- The response of `GET /companies/all` (src/server.js lines 247-252). -/
structure CompaniesAllResp where
  total : Nat
  cached : Nat
  pages : Nat
  data : List Json

/-- Route `GET /companies/all`: on success the response and the new cache, on a
thrown fetch error the message and the cache as primed so far. -/
def companiesAll (fetch : Nat → Except String (List Json)) (max : Nat) (cache : Cache) :
    Except (String × Cache) (CompaniesAllResp × Cache) :=
  match companiesAllLoop fetch max 102 1 [] cache with
  | .error e => .error e
  | .ok (acc, pages, cache2) =>
    .ok ({ total := acc.length, cached := cacheSize cache2, pages := pages,
           data := acc.take max }, cache2)

/-- The `+380` followed by nine digits format from the spec invariant. -/
def uaFormat (p : String) : Bool :=
  match p.data with
  | '+' :: '3' :: '8' :: '0' :: rest => rest.length == 9 && rest.all Char.isDigit
  | _ => false

/-- The property claimed (C1) of every element of `phones`: normalized
Ukrainian format, or a non-Ukrainian leading `+` left unchanged. -/
def claimC1Holds (p : String) : Prop :=
  uaFormat p = true ∨
    (p.data.take 1 = ['+'] ∧ p.data.take 4 ≠ ['+', '3', '8', '0'] ∧
      normalizeUaPhone (Json.str p) = p)

instance : DecidablePred claimC1Holds := fun _ => by
  unfold claimC1Holds; infer_instance

/-! ## Helper lemmas: the phone normalizer is the identity on its outputs -/

/-- Characters free of the stripped class `[\s()-]`. -/
def CleanL (cs : List Char) : Prop := ∀ c ∈ cs, stripChar c = false

theorem jsWs_eq_false_of_stripChar {c : Char} (h : stripChar c = false) :
    jsWs c = false := by
  unfold stripChar at h
  cases hw : jsWs c
  · rfl
  · rw [hw] at h; simp at h

theorem dropWhile_eq_self_of_not {p : Char → Bool} :
    ∀ {cs : List Char}, (∀ c ∈ cs, p c = false) → cs.dropWhile p = cs := by
  intro cs h
  cases cs with
  | nil => rfl
  | cons a l =>
    rw [List.dropWhile_cons, h a (List.mem_cons_self a l)]
    simp

theorem jsTrim_eq_self {cs : List Char} (h : ∀ c ∈ cs, jsWs c = false) :
    jsTrim cs = cs := by
  unfold jsTrim
  rw [dropWhile_eq_self_of_not h,
    dropWhile_eq_self_of_not (fun c hc => h c (List.mem_reverse.mp hc)),
    List.reverse_reverse]

theorem clean_filter (t : List Char) : CleanL (t.filter (fun c => !stripChar c)) := by
  intro c hc
  have := List.of_mem_filter hc
  simpa using this

theorem jsStrip_eq_self {cs : List Char} (h : CleanL cs) :
    cs.filter (fun c => !stripChar c) = cs :=
  List.filter_eq_self.mpr (fun c hc => by simp [h c hc])

theorem clean_norm00 {s : List Char} (h : CleanL s) : CleanL (norm00 s) := by
  unfold norm00
  split
  · intro c hc
    rcases List.mem_cons.mp hc with rfl | hc
    · decide
    · exact h c (List.mem_of_mem_drop hc)
  · exact h

theorem clean_normBranch {s : List Char} (h : CleanL s) : CleanL (normBranch s) := by
  unfold normBranch
  split
  · exact h
  · split
    · intro c hc
      rcases List.mem_cons.mp hc with rfl | hc
      · decide
      · exact h c hc
    · split
      · intro c hc
        rcases List.mem_cons.mp hc with rfl | hc
        · decide
        rcases List.mem_cons.mp hc with rfl | hc
        · decide
        rcases List.mem_cons.mp hc with rfl | hc
        · decide
        · exact h c hc
      · exact h

theorem clean_normCore (input : List Char) : CleanL (normCore input) := by
  unfold normCore
  dsimp only
  split
  · intro c hc; simp at hc
  · exact clean_normBranch (clean_norm00 (clean_filter _))

theorem take2_ne_00_of_plus (l : List Char) : ('+' :: l).take 2 ≠ ['0', '0'] := by
  cases l <;> simp

theorem norm00_take2 (s : List Char) : (norm00 s).take 2 ≠ ['0', '0'] := by
  unfold norm00
  split
  · exact take2_ne_00_of_plus _
  · assumption

theorem normBranch_take2 {s : List Char} (h : s.take 2 ≠ ['0', '0']) :
    (normBranch s).take 2 ≠ ['0', '0'] := by
  unfold normBranch
  split
  · exact h
  · split
    · exact take2_ne_00_of_plus _
    · split
      · simp
      · exact h

theorem re380_plus_take4 {s : List Char} (h : re380 s = true) :
    ('+' :: s).take 4 = ['+', '3', '8', '0'] := by
  unfold re380 at h
  split at h
  · rfl
  · exact absurd h (by simp)

theorem re0_plus38_take4 {s : List Char} (h : re0 s = true) :
    ('+' :: '3' :: '8' :: s).take 4 = ['+', '3', '8', '0'] := by
  unfold re0 at h
  split at h
  · rfl
  · exact absurd h (by simp)

theorem normBranch_br (s : List Char) :
    (normBranch s).take 4 = ['+', '3', '8', '0'] ∨
      (re380 (normBranch s) = false ∧ re0 (normBranch s) = false) := by
  unfold normBranch
  split
  · left; assumption
  · split
    · left; exact re380_plus_take4 (by assumption)
    · split
      · left; exact re0_plus38_take4 (by assumption)
      · right
        constructor
        · exact Bool.eq_false_iff.mpr (by assumption)
        · exact Bool.eq_false_iff.mpr (by assumption)

/-- The core normalizer `normCore` is the identity on any clean string that does not start with
`00` and either already has the `+380` prefix or matches neither regex. -/
theorem normCore_fix {y : List Char} (hclean : CleanL y)
    (h00 : y.take 2 ≠ ['0', '0'])
    (hbr : y.take 4 = ['+', '3', '8', '0'] ∨ (re380 y = false ∧ re0 y = false)) :
    normCore y = y := by
  by_cases hy : y = []
  · subst hy; rfl
  · have hws : ∀ c ∈ y, jsWs c = false :=
      fun c hc => jsWs_eq_false_of_stripChar (hclean c hc)
    unfold normCore
    rw [jsTrim_eq_self hws, if_neg hy, jsStrip_eq_self hclean]
    unfold norm00
    rw [if_neg h00]
    unfold normBranch
    rcases hbr with hbr | ⟨h380, h0⟩
    · rw [if_pos hbr]
    · split
      · rfl
      · rw [h380, h0]
        simp

/-- The phone normalizer is idempotent. -/
theorem normCore_idem (input : List Char) : normCore (normCore input) = normCore input := by
  have hclean := clean_normCore input
  apply normCore_fix hclean
  · show (normCore input).take 2 ≠ ['0', '0']
    unfold normCore
    dsimp only
    split
    · simp
    · exact normBranch_take2 (norm00_take2 _)
  · show (normCore input).take 4 = _ ∨ _
    unfold normCore
    dsimp only
    split
    · right; constructor <;> rfl
    · exact normBranch_br _

/-! ## Helper lemmas: the company cache -/

theorem sameValueZero_refl {j : Json} (h : j.isPrim = true) :
    sameValueZero j j = true := by
  cases j <;> simp_all [Json.isPrim, sameValueZero]

theorem cacheFind_map_replace (m : Cache) (k v : Json) :
    cacheFind (m.map (fun p => if sameValueZero p.1 k then (p.1, v) else p)) k
      = (m.find? (fun p => sameValueZero p.1 k)).map (fun _ => v) := by
  induction m with
  | nil => rfl
  | cons p m ih =>
    unfold cacheFind at ih ⊢
    cases hsv : sameValueZero p.1 k
    · have hif : (if sameValueZero p.1 k = true then (p.1, v) else p) = p :=
        if_neg (by simp [hsv])
      rw [List.map_cons, hif, List.find?_cons, List.find?_cons, hsv]
      exact ih
    · have hif : (if sameValueZero p.1 k = true then (p.1, v) else p) = (p.1, v) :=
        if_pos hsv
      simp only [List.map_cons, hif, List.find?_cons]
      simp [hsv]

theorem cacheFind_set_self {k : Json} (m : Cache) (v : Json)
    (hk : sameValueZero k k = true) : cacheFind (cacheSet m k v) k = some v := by
  unfold cacheSet
  split
  · next hfind =>
    rw [cacheFind_map_replace]
    rcases Option.isSome_iff_exists.mp hfind with ⟨p, hp⟩
    rw [hp]; rfl
  · next hfind =>
    have hnone : m.find? (fun p => sameValueZero p.1 k) = none :=
      Option.not_isSome_iff_eq_none.mp hfind
    unfold cacheFind
    rw [List.find?_append, hnone]
    simp [List.find?_cons, hk]

theorem cacheFind_isSome_iff {m : Cache} {k : Json} :
    (cacheFind m k).isSome = true ↔ ∃ p ∈ m, sameValueZero p.1 k = true := by
  unfold cacheFind
  rw [Option.isSome_map']
  exact List.find?_isSome

theorem cacheFind_isSome_set {m : Cache} {k : Json} (k2 v : Json)
    (h : (cacheFind m k).isSome = true) :
    (cacheFind (cacheSet m k2 v) k).isSome = true := by
  rcases cacheFind_isSome_iff.mp h with ⟨p, hp, hsv⟩
  apply cacheFind_isSome_iff.mpr
  unfold cacheSet
  split
  · refine ⟨(fun p => if sameValueZero p.1 k2 then (p.1, v) else p) p,
      List.mem_map_of_mem _ hp, ?_⟩
    show sameValueZero (if sameValueZero p.1 k2 = true then (p.1, v) else p).1 k = true
    split <;> exact hsv
  · exact ⟨p, List.mem_append_left _ hp, hsv⟩

theorem cacheFind_isSome_prime {k : Json} :
    ∀ (raw : List Json) (m : Cache), (cacheFind m k).isSome = true →
      (cacheFind (primeCache m raw) k).isSome = true := by
  intro raw
  induction raw with
  | nil => intro m h; exact h
  | cons company rest ih =>
    intro m h
    unfold primeCache
    apply ih
    split
    · exact cacheFind_isSome_set _ _ h
    · exact h

/-! ## Claim theorems -/

/-- C6: `normalizeUaPhone` maps "0501234567" to "+380501234567",
"380501234567" to "+380501234567", "+380501234567" to itself (idempotent on
that value), "0044123456789" to "+44123456789", "" to "", and
"+1 202-555-0123" to "+12025550123". -/
theorem normalizeUaPhone_examples :
    normalizeUaPhone (Json.str "0501234567") = "+380501234567"
    ∧ normalizeUaPhone (Json.str "380501234567") = "+380501234567"
    ∧ normalizeUaPhone (Json.str "+380501234567") = "+380501234567"
    ∧ normalizeUaPhone (Json.str "0044123456789") = "+44123456789"
    ∧ normalizeUaPhone (Json.str "") = ""
    ∧ normalizeUaPhone (Json.str "+1 202-555-0123") = "+12025550123" := by
  decide

/-- C5: for every raw buyer record, the dedupe-key sequence of the canonical
buyer equals the `tel:`-prefixed phones followed by the `email:`-prefixed
emails, its length is `phones.length + emails.length`, and the two records
with phones "0501234567" resp. "+380501234567" (no email) both yield the
single dedupe key "tel:+380501234567". -/
theorem mapBuyer_dedupe_keys :
    (∀ b : Json,
      (mapBuyer b).dedupe
        = (mapBuyer b).phones.map (fun p => "tel:" ++ p)
            ++ (mapBuyer b).emails.map (fun e => "email:" ++ e)
      ∧ (mapBuyer b).dedupe.length
          = (mapBuyer b).phones.length + (mapBuyer b).emails.length)
    ∧ (mapBuyer (Json.obj [("phone", Json.str "0501234567")])).dedupe
        = ["tel:+380501234567"]
    ∧ (mapBuyer (Json.obj [("phone", Json.str "+380501234567")])).dedupe
        = ["tel:+380501234567"] := by
  refine ⟨fun b => ⟨rfl, ?_⟩, by decide, by decide⟩
  show ((mapBuyer b).phones.map (fun p => "tel:" ++ p)
      ++ (mapBuyer b).emails.map (fun e => "email:" ++ e)).length = _
  rw [List.length_append, List.length_map, List.length_map]

/-- C4: accumulator behaviour of `GET /buyers/all`.  For pages of sizes
[15,15,15,0] and max 1000 the result has 45 records with pages_processed 3;
for max 20 and endless pages of 15 the loop issues exactly 2 page fetches
and returns exactly 20 records; and for every source the returned data is
truncated to at most max records. -/
theorem buyersAll_accumulator :
    (buyersAll (fun p => if p ≤ 3 then List.replicate 15 Json.null else []) 1000).1.total = 45
    ∧ (buyersAll (fun p => if p ≤ 3 then List.replicate 15 Json.null else []) 1000).1.pages = 3
    ∧ (buyersAll (fun _ => List.replicate 15 Json.null) 20).2 = 2
    ∧ (buyersAll (fun _ => List.replicate 15 Json.null) 20).1.data.length = 20
    ∧ ∀ (fetch : Nat → List Json) (max : Nat),
        (buyersAll fetch max).1.data.length ≤ max := by
  refine ⟨by decide, by decide, by decide, by decide, fun fetch max => ?_⟩
  show (((buyersAllLoop fetch max 1002 1 [] 0).1.take max).map mapBuyer).length ≤ max
  rw [List.length_map, List.length_take]
  exact Nat.min_le_left _ _

/-- C1 counterexample: the record `{phone: "12345"}` yields the phones entry
"12345", which neither matches `+380` plus nine digits nor carries a leading
`+`, refuting the claimed dichotomy. -/
theorem mapBuyer_phones_claimC1_cex :
    "12345" ∈ (mapBuyer (Json.obj [("phone", Json.str "12345")])).phones
    ∧ ¬ claimC1Holds "12345" := by
  constructor
  · decide
  · decide

/-- C1 (amended): every element of the phones sequence is a nonempty string
on which the normalizer is the identity — either the normalized Ukrainian
`+380` format or any other cleaned string (with or without a leading `+`)
passed through unchanged. -/
theorem mapBuyer_phones_normalized_or_unchanged (b : Json) (p : String)
    (hp : p ∈ (mapBuyer b).phones) :
    p ≠ "" ∧ (uaFormat p = true ∨ normalizeUaPhone (Json.str p) = p) := by
  have hfilter : p ∈ ((ensureArray (jsOr (jsAnd b (b.getF "phone"))
      (jsAnd b (b.getF "phones")))).map normalizeUaPhone).filter
        (fun s => s != "") := hp
  have hne : p ≠ "" := by simpa using List.of_mem_filter hfilter
  rcases List.mem_map.mp (List.mem_of_mem_filter hfilter) with ⟨q, _, hpq⟩
  refine ⟨hne, Or.inr ?_⟩
  have htr : (Json.str p).truthy = true := by simp [Json.truthy, hne]
  have h1 : jsOr (Json.str p) (Json.str "") = Json.str p := by simp [jsOr, htr]
  unfold normalizeUaPhone
  rw [h1]
  show String.mk (normCore p.data) = p
  rw [← hpq]
  unfold normalizeUaPhone
  exact congrArg String.mk (normCore_idem _)

/-- C1 witness: the amended statement instantiated at the record
`{phone: "0501234567"}` and its produced phone "+380501234567". -/
theorem mapBuyer_phones_normalized_or_unchanged_witness :
    "+380501234567" ≠ ""
    ∧ (uaFormat "+380501234567" = true
        ∨ normalizeUaPhone (Json.str "+380501234567") = "+380501234567") :=
  mapBuyer_phones_normalized_or_unchanged
    (Json.obj [("phone", Json.str "0501234567")]) "+380501234567" (by decide)

/-- C2 counterexample: the record with raw phones ["0501234567",
"+380501234567"] yields a phones sequence with two entries that are equal
(also after normalization), refuting the claimed deduplication. -/
theorem mapBuyer_phones_dedup_cex :
    (mapBuyer (Json.obj [("phones",
        Json.arr [Json.str "0501234567", Json.str "+380501234567"])])).phones
      = ["+380501234567", "+380501234567"]
    ∧ ¬ ((mapBuyer (Json.obj [("phones",
        Json.arr [Json.str "0501234567", Json.str "+380501234567"])])).phones.map
          (fun s => normalizeUaPhone (Json.str s))).Nodup := by
  constructor
  · decide
  · decide

/-- C2 (amended): `mapBuyer` does not deduplicate phones.  The phones
sequence is the raw phone entries normalized in first-seen order with empty
normalizations dropped: it is a sublist of the normalized raw list, and
every nonempty string occurs in it with the same multiplicity as in the
normalized raw list. -/
theorem mapBuyer_phones_multiplicity (b : Json) (p : String) (hp : p ≠ "") :
    (mapBuyer b).phones.count p
      = ((ensureArray (jsOr (jsAnd b (b.getF "phone"))
          (jsAnd b (b.getF "phones")))).map normalizeUaPhone).count p
    ∧ (mapBuyer b).phones.Sublist
        ((ensureArray (jsOr (jsAnd b (b.getF "phone"))
          (jsAnd b (b.getF "phones")))).map normalizeUaPhone) := by
  constructor
  · show (((ensureArray (jsOr (jsAnd b (b.getF "phone"))
        (jsAnd b (b.getF "phones")))).map normalizeUaPhone).filter
          (fun s => s != "")).count p = _
    rw [List.count_filter (by simpa using hp)]
  · exact List.filter_sublist _

/-- C2 witness: the amended statement instantiated at the duplicate-phone
record and the phone "+380501234567". -/
theorem mapBuyer_phones_multiplicity_witness :
    (mapBuyer (Json.obj [("phones",
        Json.arr [Json.str "0501234567", Json.str "+380501234567"])])).phones.count
          "+380501234567"
      = ((ensureArray (jsOr
          (jsAnd (Json.obj [("phones",
            Json.arr [Json.str "0501234567", Json.str "+380501234567"])])
            ((Json.obj [("phones",
              Json.arr [Json.str "0501234567", Json.str "+380501234567"])]).getF "phone"))
          (jsAnd (Json.obj [("phones",
            Json.arr [Json.str "0501234567", Json.str "+380501234567"])])
            ((Json.obj [("phones",
              Json.arr [Json.str "0501234567", Json.str "+380501234567"])]).getF "phones")))).map
              normalizeUaPhone).count "+380501234567"
    ∧ (mapBuyer (Json.obj [("phones",
        Json.arr [Json.str "0501234567", Json.str "+380501234567"])])).phones.Sublist
        ((ensureArray (jsOr
          (jsAnd (Json.obj [("phones",
            Json.arr [Json.str "0501234567", Json.str "+380501234567"])])
            ((Json.obj [("phones",
              Json.arr [Json.str "0501234567", Json.str "+380501234567"])]).getF "phone"))
          (jsAnd (Json.obj [("phones",
            Json.arr [Json.str "0501234567", Json.str "+380501234567"])])
            ((Json.obj [("phones",
              Json.arr [Json.str "0501234567", Json.str "+380501234567"])]).getF "phones")))).map
              normalizeUaPhone) :=
  mapBuyer_phones_multiplicity
    (Json.obj [("phones", Json.arr [Json.str "0501234567", Json.str "+380501234567"])])
    "+380501234567" (by decide)

/-- C3 counterexample: after bulk priming stores a company under its numeric
id 123, a lookup with the string id "123" misses the cache and invokes
upstream, refuting the claimed by-value key comparison. -/
theorem companyCache_string_key_miss_cex :
    cacheFind (primeCache [] [Json.obj [("id", Json.num 123)]]) (Json.str "123") = none
    ∧ (getCompanyById (fun _ => Except.error "fail")
        (primeCache [] [Json.obj [("id", Json.num 123)]]) (Json.str "123")).2.2 = true := by
  constructor
  · rfl
  · rfl

/-- C3 (amended): cache keys are compared by SameValueZero (strict, no
numeric/string coercion): whenever every cached key is numeric, a
`getCompanyById` with the string form of an id misses the cache and invokes
the upstream client. -/
theorem companyCache_numeric_keys_string_get_fetches
    (up : Json → Except String Json) (cache : Cache) (s : String)
    (hnum : ∀ p ∈ cache, ∃ n : Int, p.1 = Json.num n) (hs : s ≠ "") :
    (getCompanyById up cache (Json.str s)).2.2 = true := by
  have htr : (Json.str s).truthy = true := by simp [Json.truthy, hs]
  have hfind : cacheFind cache (Json.str s) = none := by
    unfold cacheFind
    rw [List.find?_eq_none.mpr ?_]
    · rfl
    · intro p hp
      rcases hnum p hp with ⟨n, hn⟩
      simp [hn, sameValueZero]
  cases hup : up (Json.str s) with
  | ok v => simp [getCompanyById, htr, hfind, hup]
  | error e => simp [getCompanyById, htr, hfind, hup]

/-- C3 witness: the amended statement at a cache holding numeric key 123 and
the string id "123". -/
theorem companyCache_numeric_keys_string_get_fetches_witness :
    (getCompanyById (fun _ => Except.error "fail")
      [(Json.num 123, Json.str "co")] (Json.str "123")).2.2 = true :=
  companyCache_numeric_keys_string_get_fetches _ _ "123"
    (by
      intro p hp
      rw [List.mem_singleton] at hp
      subst hp
      exact ⟨123, rfl⟩)
    (by decide)

/-- C7: the get-or-fetch contract of `getCompanyById`: a cached id is
returned without invoking upstream; after a first successful fetch a second
call (with any upstream, e.g. a failing one) returns the cached record
without invoking upstream; an upstream failure caches nothing and yields the
not-found outcome (`null`); after `clear()` the next call invokes upstream
again. -/
theorem getCompanyById_contract :
    (∀ (up : Json → Except String Json) (cache : Cache) (id v : Json),
      id.truthy = true → cacheFind cache id = some v →
      getCompanyById up cache id = (v, cache, false))
    ∧ (∀ (up1 up2 : Json → Except String Json) (cache : Cache) (id v : Json),
      id.truthy = true → id.isPrim = true → cacheFind cache id = none →
      up1 id = .ok v →
      getCompanyById up2 (getCompanyById up1 cache id).2.1 id
        = (v, (getCompanyById up1 cache id).2.1, false))
    ∧ (∀ (up : Json → Except String Json) (cache : Cache) (id : Json) (e : String),
      id.truthy = true → cacheFind cache id = none → up id = .error e →
      getCompanyById up cache id = (Json.null, cache, true))
    ∧ (∀ (up : Json → Except String Json) (cache0 : Cache) (id : Json),
      id.truthy = true → (getCompanyById up (cacheClear cache0) id).2.2 = true) := by
  refine ⟨?_, ?_, ?_, ?_⟩
  · intro up cache id v htr hfind
    simp [getCompanyById, htr, hfind]
  · intro up1 up2 cache id v htr hprim hfind hup
    have hstate : (getCompanyById up1 cache id).2.1 = cacheSet cache id v := by
      simp [getCompanyById, htr, hfind, hup]
    rw [hstate]
    simp [getCompanyById, htr,
      cacheFind_set_self cache v (sameValueZero_refl hprim)]
  · intro up cache id e htr hfind hup
    simp [getCompanyById, htr, hfind, hup]
  · intro up cache0 id htr
    have hfind : cacheFind (cacheClear cache0) id = none := rfl
    cases hup : up id with
    | ok v => simp [getCompanyById, htr, hfind, hup]
    | error e => simp [getCompanyById, htr, hfind, hup]

/-- C7 witness: the four parts of the contract at concrete caches, ids and
upstreams. -/
theorem getCompanyById_contract_witness :
    getCompanyById (fun _ => Except.error "e") [(Json.num 7, Json.str "co")] (Json.num 7)
      = (Json.str "co", [(Json.num 7, Json.str "co")], false)
    ∧ getCompanyById (fun _ => Except.error "e2")
        (getCompanyById (fun _ => Except.ok (Json.str "co")) [] (Json.num 7)).2.1
        (Json.num 7)
      = (Json.str "co",
         (getCompanyById (fun _ => Except.ok (Json.str "co")) [] (Json.num 7)).2.1, false)
    ∧ getCompanyById (fun _ => Except.error "boom") [] (Json.num 7)
      = (Json.null, [], true)
    ∧ (getCompanyById (fun _ => Except.ok Json.null)
        (cacheClear [(Json.num 7, Json.str "co")]) (Json.num 7)).2.2 = true :=
  ⟨getCompanyById_contract.1 _ _ _ _ (by decide) (by rfl),
   getCompanyById_contract.2.1 _ _ _ _ _ (by decide) (by decide) (by rfl) (by rfl),
   getCompanyById_contract.2.2.1 _ _ _ _ (by decide) (by rfl) (by rfl),
   getCompanyById_contract.2.2.2 _ _ _ (by decide)⟩

theorem jsAnd_eq_of_truthy {a b : Json} (h : (jsAnd a b).truthy = true) :
    jsAnd a b = b := by
  unfold jsAnd at h ⊢
  split at h
  · next ht => rw [if_pos ht]
  · next ht => exact absurd h ht

/-- C8: the upstream client fails without issuing a request when no
credential is configured; on a non-success status it fails with a message
taken from the body's `message` field, else its `error` field, else the
status's reason phrase; and a success status with an empty body yields
`null`, not a failure. -/
theorem keycrm_contract :
    (∀ (key : Option String) (method path : String) (resp : HttpResponse),
      keyTruthy key = false →
      keycrm key method path resp
        = (false, .error (.config "KEYCRM_API_KEY не задан в .env")))
    ∧ (∀ (key : Option String) (method path : String) (status : Nat)
        (stext : String) (j : Json),
      keyTruthy key = true → ¬(200 ≤ status ∧ status ≤ 299) →
      (jsAnd j (j.getF "message")).truthy = true →
      keycrm key method path ⟨status, stext, some j⟩
        = (true, .error (.upstream method path status (jsToString (j.getF "message")))))
    ∧ (∀ (key : Option String) (method path : String) (status : Nat)
        (stext : String) (j : Json),
      keyTruthy key = true → ¬(200 ≤ status ∧ status ≤ 299) →
      (jsAnd j (j.getF "message")).truthy = false →
      (jsAnd j (j.getF "error")).truthy = true →
      keycrm key method path ⟨status, stext, some j⟩
        = (true, .error (.upstream method path status (jsToString (j.getF "error")))))
    ∧ (∀ (key : Option String) (method path : String) (status : Nat) (stext : String),
      keyTruthy key = true → ¬(200 ≤ status ∧ status ≤ 299) →
      keycrm key method path ⟨status, stext, none⟩
        = (true, .error (.upstream method path status stext)))
    ∧ (∀ (key : Option String) (method path : String) (status : Nat) (stext : String),
      keyTruthy key = true → 200 ≤ status → status ≤ 299 →
      keycrm key method path ⟨status, stext, none⟩ = (true, .ok Json.null)) := by
  refine ⟨?_, ?_, ?_, ?_, ?_⟩
  · intro key method path resp hkey
    simp [keycrm, hkey]
  · intro key method path status stext j hkey hst hm
    have hb : (decide (200 ≤ status) && decide (status ≤ 299)) = false := by
      simp only [Bool.and_eq_false_iff, decide_eq_false_iff_not]
      tauto
    simp [keycrm, hkey, hb, jsOr, hm]
    rw [jsAnd_eq_of_truthy hm]
  · intro key method path status stext j hkey hst hm he
    have hb : (decide (200 ≤ status) && decide (status ≤ 299)) = false := by
      simp only [Bool.and_eq_false_iff, decide_eq_false_iff_not]
      tauto
    simp [keycrm, hkey, hb, jsOr, hm, he]
    rw [jsAnd_eq_of_truthy he]
  · intro key method path status stext hkey hst
    have hb : (decide (200 ≤ status) && decide (status ≤ 299)) = false := by
      simp only [Bool.and_eq_false_iff, decide_eq_false_iff_not]
      tauto
    simp [keycrm, hkey, hb, jsOr, jsAnd, Json.truthy]
    rfl
  · intro key method path status stext hkey h1 h2
    have hb : (decide (200 ≤ status) && decide (status ≤ 299)) = true := by
      simp [h1, h2]
    simp [keycrm, hkey, hb]

/-- C8 witness: the five parts at concrete credentials, statuses and
bodies. -/
theorem keycrm_contract_witness :
    keycrm none "GET" "/buyer" ⟨200, "OK", none⟩
      = (false, .error (.config "KEYCRM_API_KEY не задан в .env"))
    ∧ keycrm (some "k") "GET" "/buyer"
        ⟨404, "Not Found", some (Json.obj [("message", Json.str "nope")])⟩
      = (true, .error (.upstream "GET" "/buyer" 404
          (jsToString ((Json.obj [("message", Json.str "nope")]).getF "message"))))
    ∧ keycrm (some "k") "GET" "/buyer"
        ⟨500, "Server Error", some (Json.obj [("error", Json.str "bad")])⟩
      = (true, .error (.upstream "GET" "/buyer" 500
          (jsToString ((Json.obj [("error", Json.str "bad")]).getF "error"))))
    ∧ keycrm (some "k") "GET" "/buyer" ⟨429, "Too Many Requests", none⟩
      = (true, .error (.upstream "GET" "/buyer" 429 "Too Many Requests"))
    ∧ keycrm (some "k") "GET" "/buyer" ⟨204, "No Content", none⟩
      = (true, .ok Json.null) :=
  ⟨keycrm_contract.1 none "GET" "/buyer" ⟨200, "OK", none⟩ (by decide),
   keycrm_contract.2.1 (some "k") "GET" "/buyer" 404 "Not Found"
     (Json.obj [("message", Json.str "nope")]) (by decide) (by decide) (by decide),
   keycrm_contract.2.2.1 (some "k") "GET" "/buyer" 500 "Server Error"
     (Json.obj [("error", Json.str "bad")]) (by decide) (by decide) (by decide) (by decide),
   keycrm_contract.2.2.2.1 (some "k") "GET" "/buyer" 429 "Too Many Requests"
     (by decide) (by decide),
   keycrm_contract.2.2.2.2 (some "k") "GET" "/buyer" 204 "No Content"
     (by decide) (by decide) (by decide)⟩

/-- C9: if a `/companies/all` accumulation fails on a later page, the cache
entries primed from the earlier, successful pages survive the error: the
loop never removes cache keys, and in the concrete run (page 1 yields the
company with id 1, page 2 throws) the error response leaves that company
cached. -/
theorem companiesAll_cache_survives_failure :
    (∀ (fetch : Nat → Except String (List Json)) (max fuel page : Nat)
        (acc : List Json) (cache : Cache) (e : String) (cache2 : Cache),
      companiesAllLoop fetch max fuel page acc cache = .error (e, cache2) →
      ∀ k : Json, (cacheFind cache k).isSome = true →
        (cacheFind cache2 k).isSome = true)
    ∧ (companiesAll
        (fun p => if p = 1 then .ok [Json.obj [("id", Json.num 1)]] else .error "boom")
        5000 []
        = .error ("boom", [(Json.num 1, Json.obj [("id", Json.num 1)])])
      ∧ cacheFind [(Json.num 1, Json.obj [("id", Json.num 1)])] (Json.num 1)
          = some (Json.obj [("id", Json.num 1)])) := by
  constructor
  · intro fetch max fuel
    induction fuel with
    | zero =>
      intro page acc cache e cache2 h
      exact absurd h (by simp [companiesAllLoop])
    | succ fuel ih =>
      intro page acc cache e cache2 h k hk
      unfold companiesAllLoop at h
      split at h
      · split at h
        · simp only [Except.error.injEq, Prod.mk.injEq] at h
          rcases h with ⟨-, rfl⟩
          exact hk
        · split at h
          · exact absurd h (by simp)
          · exact ih _ _ _ e cache2 h k (cacheFind_isSome_prime _ cache hk)
      · exact absurd h (by simp)
  · exact ⟨rfl, rfl⟩

/-- C9 witness: the no-key-loss statement applied to the concrete failing
run started with a pre-existing cache entry under key 0. -/
theorem companiesAll_cache_survives_failure_witness :
    (cacheFind [(Json.num 0, Json.null), (Json.num 1, Json.obj [("id", Json.num 1)])]
      (Json.num 0)).isSome = true :=
  companiesAll_cache_survives_failure.1
    (fun p => if p = 1 then .ok [Json.obj [("id", Json.num 1)]] else .error "boom")
    5000 102 1 [] [(Json.num 0, Json.null)] "boom"
    [(Json.num 0, Json.null), (Json.num 1, Json.obj [("id", Json.num 1)])]
    (by rfl) (Json.num 0) (by rfl)

/-- C10: in the `/companies/all` response `total` is the accumulated count
before truncation while `data` is truncated to at most `max` (so `total` can
exceed both, as in the concrete overshoot run), whereas in the `/buyers/all`
response `total` equals the truncated data length and never exceeds `max`. -/
theorem totals_contract :
    (∀ (fetch : Nat → List Json) (max : Nat),
      (buyersAll fetch max).1.total = (buyersAll fetch max).1.data.length
      ∧ (buyersAll fetch max).1.total ≤ max)
    ∧ (∀ (fetch : Nat → Except String (List Json)) (max : Nat) (cache : Cache)
        (resp : CompaniesAllResp) (cache2 : Cache),
      companiesAll fetch max cache = .ok (resp, cache2) →
      resp.data.length ≤ max ∧ resp.data.length ≤ resp.total)
    ∧ (companiesAll
        (fun p => if p = 1 then .ok (List.replicate 5 (Json.obj [("x", Json.num 1)]))
          else .ok []) 3 []
        = .ok ({ total := 5, cached := 0, pages := 1,
                 data := List.replicate 3 (Json.obj [("x", Json.num 1)]) }, [])
      ∧ 3 < 5) := by
  refine ⟨?_, ?_, by exact ⟨rfl, by decide⟩⟩
  · intro fetch max
    refine ⟨rfl, ?_⟩
    show (((buyersAllLoop fetch max 1002 1 [] 0).1.take max).map mapBuyer).length ≤ max
    rw [List.length_map, List.length_take]
    exact Nat.min_le_left _ _
  · intro fetch max cache resp cache2 h
    unfold companiesAll at h
    cases hloop : companiesAllLoop fetch max 102 1 [] cache with
    | error ep => rw [hloop] at h; exact absurd h (by simp)
    | ok t =>
      obtain ⟨acc, pages, cacheF⟩ := t
      rw [hloop] at h
      simp only [Except.ok.injEq, Prod.mk.injEq] at h
      rcases h with ⟨rfl, rfl⟩
      constructor
      · show (acc.take max).length ≤ max
        rw [List.length_take]
        exact Nat.min_le_left _ _
      · show (acc.take max).length ≤ acc.length
        rw [List.length_take]
        exact Nat.min_le_right _ _

/-- C10 witness: the ok-case statement applied to the concrete overshoot
run. -/
theorem totals_contract_witness :
    ({ total := 5, cached := 0, pages := 1,
       data := List.replicate 3 (Json.obj [("x", Json.num 1)]) } :
        CompaniesAllResp).data.length ≤ 3
    ∧ ({ total := 5, cached := 0, pages := 1,
         data := List.replicate 3 (Json.obj [("x", Json.num 1)]) } :
          CompaniesAllResp).data.length
        ≤ ({ total := 5, cached := 0, pages := 1,
             data := List.replicate 3 (Json.obj [("x", Json.num 1)]) } :
              CompaniesAllResp).total :=
  totals_contract.2.1
    (fun p => if p = 1 then .ok (List.replicate 5 (Json.obj [("x", Json.num 1)]))
      else .ok []) 3 [] _ [] (by rfl)
